import Mathlib

/-!
Shallow embedding of the ShaderLand scene shaders (src/src/ShaderLand/scene.ts).

The repository holds two near-identical scene variants in one file: a plain
stripe-shader variant and a depth-weighted Bayer-dither variant.  GLSL float
arithmetic is idealised over an ordered field: the stripe pipeline (which uses
only `+ * mod step mix`) is stated polymorphically and instantiated at `ℚ` for
concrete evaluation, while the dither pipeline (whose `pow` has a real
exponent) is embedded over `ℝ` with `Real.rpow`.
-/

namespace ShaderLand

section FieldDefs

variable {α : Type*} [LinearOrderedField α] [FloorRing α]

/-- GLSL `step(edge, x)`: 0 if `x < edge`, else 1. -/
def step (edge x : α) : α := if x < edge then 0 else 1

/-- GLSL `mod(x, y) = x - y * floor(x / y)`. -/
def glslMod (x y : α) : α := x - y * ⌊x / y⌋

/-- GLSL `mix(a, b, t) = a * (1 - t) + b * t`. -/
def mix (a b t : α) : α := a * (1 - t) + b * t

/-- GLSL `clamp(x, lo, hi) = min(max(x, lo), hi)`. -/
def clamp (x lo hi : α) : α := min (max x lo) hi

/-- The period `totalWidth = stripeWidth + stripeSpacing` computed by the
fragment shader (scene.ts line 99 / 391) and used as the modulus. -/
def totalWidth (stripeWidth stripeSpacing : α) : α := stripeWidth + stripeSpacing

/-- The stripe mask `line` of the fragment shader (scene.ts lines 97-101,
identically 389-393): `animatedY = vViewPosition.y + time * speed`,
`stripePattern = mod(animatedY, totalWidth)`,
`line = step(0.0, stripePattern) - step(stripeWidth, stripePattern)`. -/
def stripeLine (vY time stripeWidth stripeSpacing speed : α) : α :=
  let animatedY := vY + time * speed
  let stripePattern := glslMod animatedY (totalWidth stripeWidth stripeSpacing)
  step 0 stripePattern - step stripeWidth stripePattern

/-- The stripe mask as a function of the animated coordinate alone (the shader
evaluates the mask at `animatedY = vY + time * speed`; this is that same
computation with `time = 0`, so the coordinate is passed through untouched). -/
def maskOfY (yAnim stripeWidth stripeSpacing : α) : α :=
  stripeLine yAnim 0 stripeWidth stripeSpacing 0

/-- Modelled from the spec: the stripe mask as section 4.1 requires it, with
`stripeWidth` and `stripeSpacing` each clamped to the minimum 0.001 before the
period is formed.  No such clamping exists anywhere in scene.ts. -/
def stripeLineClamped (vY time stripeWidth stripeSpacing speed : α) : α :=
  stripeLine vY time (max stripeWidth (1/1000)) (max stripeSpacing (1/1000)) speed

/-- Fragment `main` of the stripe variant (scene.ts lines 97-108): the mask,
then `finalColor = mix(vec3(0.0), vec3(1.0), line)` and
`alpha = mix(0.95, 1.0, line)`.  Returns `(finalColor, alpha)`.  Note that
this fragment shader receives no depth input at all. -/
def fragMainStripe (vY time stripeWidth stripeSpacing speed : α) :
    (α × α × α) × α :=
  let line := stripeLine vY time stripeWidth stripeSpacing speed
  let finalColor := (mix 0 1 line, mix 0 1 line, mix 0 1 line)
  let alpha := mix (95/100) 1 line
  (finalColor, alpha)

end FieldDefs

/-- The 4x4 Bayer table of `getDitherValue` (scene.ts lines 378-383),
row-major, indexed by `x + y * 4`. -/
def bayer : List ℚ :=
  [0/16, 8/16, 2/16, 10/16,
   12/16, 4/16, 14/16, 6/16,
   3/16, 11/16, 1/16, 9/16,
   15/16, 7/16, 13/16, 5/16]

/-- From `getDitherValue` (scene.ts line 367):
`normalizedDepth = 1.0 - clamp(depth / ditherDepthScale, 0.0, 1.0)`. -/
noncomputable def normalizedDepth (depth ditherDepthScale : ℝ) : ℝ :=
  1 - clamp (depth / ditherDepthScale) 0 1

/-- From `getDitherValue` (scene.ts line 368):
`contrastDepth = pow(normalizedDepth, 1.0 + ditherContrast * 2.0)`. -/
noncomputable def contrastDepth (depth ditherDepthScale ditherContrast : ℝ) : ℝ :=
  normalizedDepth depth ditherDepthScale ^ (1 + ditherContrast * 2)

/-- From `getDitherValue` (scene.ts line 371):
`dynamicSize = ditherSize * (1.0 - contrastDepth)`. -/
noncomputable def dynamicSize (ditherSize depth ditherDepthScale ditherContrast : ℝ) : ℝ :=
  ditherSize * (1 - contrastDepth depth ditherDepthScale ditherContrast)

/-- From `getDitherValue` (scene.ts lines 372-383): the selected Bayer entry.
`patternCoord = coord / max(dynamicSize, 1.0)`,
`bayerCoord = floor(mod(patternCoord, 4.0))`,
`x = int(bayerCoord.x)`, `y = int(bayerCoord.y)` (both already integral and
nonnegative, so `int` truncation is `Int.floor`), entry `bayer[x + y * 4]`. -/
noncomputable def bayerEntry (coordX coordY dsize : ℝ) : ℝ :=
  let pX := coordX / max dsize 1
  let pY := coordY / max dsize 1
  let iX : ℤ := ⌊glslMod pX 4⌋
  let iY : ℤ := ⌊glslMod pY 4⌋
  ((bayer.getD (iX + iY * 4).toNat 0 : ℚ) : ℝ)

/-- `getDitherValue` (scene.ts lines 365-387): the Bayer entry blended with
its hard-thresholded version,
`return mix(bayer, step(0.5, bayer), contrastDepth)`. -/
noncomputable def getDitherValue
    (coordX coordY depth ditherSize ditherDepthScale ditherContrast : ℝ) : ℝ :=
  let cd := contrastDepth depth ditherDepthScale ditherContrast
  let b := bayerEntry coordX coordY (dynamicSize ditherSize depth ditherDepthScale ditherContrast)
  mix b (step (1/2) b) cd

/-- Modelled from the claim's words (C2): identical to `getDitherValue`
except that the Bayer entry is selected by `floor(pixelCoord / dynamicSize)
mod 4` in each axis, i.e. dividing by `dynamicSize` itself rather than by
`max(dynamicSize, 1.0)` as the code does. -/
noncomputable def getDitherValueClaimed
    (coordX coordY depth ditherSize ditherDepthScale ditherContrast : ℝ) : ℝ :=
  let cd := contrastDepth depth ditherDepthScale ditherContrast
  let dsz := dynamicSize ditherSize depth ditherDepthScale ditherContrast
  let iX : ℤ := ⌊coordX / dsz⌋ % 4
  let iY : ℤ := ⌊coordY / dsz⌋ % 4
  let b : ℝ := ((bayer.getD (iX + iY * 4).toNat 0 : ℚ) : ℝ)
  mix b (step (1/2) b) cd

/-- The amended C2 selection rule: the Bayer entry is selected by
`floor(pixelCoord / max(dynamicSize, 1)) mod 4` in each axis, everything else
as the claim states it. -/
noncomputable def getDitherValueAmended
    (coordX coordY depth ditherSize ditherDepthScale ditherContrast : ℝ) : ℝ :=
  let cd := contrastDepth depth ditherDepthScale ditherContrast
  let dsz := dynamicSize ditherSize depth ditherDepthScale ditherContrast
  let iX : ℤ := ⌊coordX / max dsz 1⌋ % 4
  let iY : ℤ := ⌊coordY / max dsz 1⌋ % 4
  let b : ℝ := ((bayer.getD (iX + iY * 4).toNat 0 : ℚ) : ℝ)
  mix b (step (1/2) b) cd

/-- Fragment `main` of the dither variant (scene.ts lines 389-408): the stripe
mask, `dither = getDitherValue(gl_FragCoord.xy, vDepth)`,
`ditheredLine = step(dither, line)`, `line = mix(line, ditheredLine,
ditherMix)`, then the same colour and alpha mixes as the stripe variant. -/
noncomputable def fragMainDither
    (vY depth coordX coordY time stripeWidth stripeSpacing speed
      ditherSize ditherDepthScale ditherContrast ditherMix : ℝ) :
    (ℝ × ℝ × ℝ) × ℝ :=
  let line := stripeLine vY time stripeWidth stripeSpacing speed
  let dither := getDitherValue coordX coordY depth ditherSize ditherDepthScale ditherContrast
  let ditheredLine := step dither line
  let lineMixed := mix line ditheredLine ditherMix
  let finalColor := (mix 0 1 lineMixed, mix 0 1 lineMixed, mix 0 1 lineMixed)
  let alpha := mix (95/100) 1 lineMixed
  (finalColor, alpha)

/-- The control-level state touched by the resize event: the material's
uniforms (scene.ts lines 328-340), the renderer size and the camera's
projection aspect ratio. -/
structure SceneState where
  time : ℚ
  stripeWidth : ℚ
  stripeSpacing : ℚ
  speed : ℚ
  resolution : ℚ × ℚ
  ditherSize : ℚ
  ditherMix : ℚ
  ditherDepthScale : ℚ
  ditherContrast : ℚ
  rendererSize : ℚ × ℚ
  cameraAspect : ℚ

/-- `handleResize` (scene.ts lines 556-560): sets `camera.aspect` to
`innerWidth / innerHeight`, recomputes the projection matrix, and calls
`renderer.setSize(innerWidth, innerHeight)`. -/
def handleResize (w h : ℚ) (st : SceneState) : SceneState :=
  { st with cameraAspect := w / h, rendererSize := (w, h) }

/-- The anonymous resize listener registered in `setupMaterial` (scene.ts
lines 417-422): sets the `resolution` uniform to the new window size. -/
def resolutionListener (w h : ℚ) (st : SceneState) : SceneState :=
  { st with resolution := (w, h) }

/-- A viewport resize fires both registered listeners. -/
def onResize (w h : ℚ) (st : SceneState) : SceneState :=
  resolutionListener w h (handleResize w h st)

/- ### Basic facts about the GLSL primitives -/

section FieldLemmas

variable {α : Type*} [LinearOrderedField α] [FloorRing α]

theorem glslMod_eq_fract (x T : α) (hT : T ≠ 0) :
    glslMod x T = T * Int.fract (x / T) := by
  unfold glslMod Int.fract
  field_simp

theorem glslMod_nonneg (x T : α) (hT : 0 < T) : 0 ≤ glslMod x T := by
  rw [glslMod_eq_fract x T hT.ne']
  exact mul_nonneg hT.le (Int.fract_nonneg _)

theorem glslMod_lt (x T : α) (hT : 0 < T) : glslMod x T < T := by
  rw [glslMod_eq_fract x T hT.ne']
  calc T * Int.fract (x / T) < T * 1 := by
        exact (mul_lt_mul_left hT).mpr (Int.fract_lt_one _)
    _ = T := mul_one T

theorem glslMod_add_period (x T : α) (hT : T ≠ 0) :
    glslMod (x + T) T = glslMod x T := by
  unfold glslMod
  have h : (x + T) / T = x / T + 1 := by field_simp
  rw [h, Int.floor_add_one]
  push_cast
  ring

/-- On `[0, T)` the mod is the identity. -/
theorem glslMod_of_mem (x T : α) (h0 : 0 ≤ x) (h1 : x < T) :
    glslMod x T = x := by
  have hT : 0 < T := lt_of_le_of_lt h0 h1
  have hfloor : ⌊x / T⌋ = 0 := by
    rw [Int.floor_eq_zero_iff]
    constructor
    · exact div_nonneg h0 hT.le
    · rw [div_lt_one hT]; exact h1
  unfold glslMod
  rw [hfloor]
  push_cast
  ring

/-- Inside the `k`-th period the mod subtracts `k` periods. -/
theorem glslMod_in_period (x T : α) (hT : 0 < T) (k : ℤ)
    (h1 : (k : α) * T ≤ x) (h2 : x < ((k : α) + 1) * T) :
    glslMod x T = x - T * k := by
  have hfloor : ⌊x / T⌋ = k := by
    rw [Int.floor_eq_iff]
    constructor
    · rw [le_div_iff₀ hT]
      exact h1
    · rw [div_lt_iff₀ hT]
      exact h2
  unfold glslMod
  rw [hfloor]

/-- The mask in closed form: for a positive period, `line` is 1 exactly when
the wrapped coordinate falls below `stripeWidth`, else 0. -/
theorem stripeLine_eq_if (vY time w s sp : α) (hT : 0 < totalWidth w s) :
    stripeLine vY time w s sp =
      if glslMod (vY + time * sp) (totalWidth w s) < w then 1 else 0 := by
  have h0 : ¬ (glslMod (vY + time * sp) (totalWidth w s) < 0) :=
    not_lt.mpr (glslMod_nonneg _ _ hT)
  simp only [stripeLine, step]
  rw [if_neg h0]
  by_cases h : glslMod (vY + time * sp) (totalWidth w s) < w
  · rw [if_pos h, if_pos h]; ring
  · rw [if_neg h, if_neg h]; ring

theorem maskOfY_eq_if (yAnim w s : α) (hT : 0 < w + s) :
    maskOfY yAnim w s = if glslMod yAnim (w + s) < w then 1 else 0 := by
  unfold maskOfY
  rw [stripeLine_eq_if _ _ _ _ _ (by simpa [totalWidth] using hT)]
  norm_num [totalWidth]

theorem maskOfY_eq_one_iff (yAnim w s : α) (hT : 0 < w + s) :
    maskOfY yAnim w s = 1 ↔ glslMod yAnim (w + s) < w := by
  rw [maskOfY_eq_if yAnim w s hT]
  split_ifs with h
  · simp [h]
  · simp [h]

omit [FloorRing α] in
theorem step_mem (edge x : α) : step edge x = 0 ∨ step edge x = 1 := by
  unfold step
  split_ifs <;> simp

omit [FloorRing α] in
theorem step_mem_unit (edge x : α) : 0 ≤ step edge x ∧ step edge x ≤ 1 := by
  unfold step
  split_ifs <;> norm_num

omit [FloorRing α] in
theorem mix_mem (a b t : α) (ha0 : 0 ≤ a) (ha1 : a ≤ 1) (hb0 : 0 ≤ b)
    (hb1 : b ≤ 1) (ht0 : 0 ≤ t) (ht1 : t ≤ 1) :
    0 ≤ mix a b t ∧ mix a b t ≤ 1 := by
  unfold mix
  constructor
  · nlinarith
  · nlinarith

end FieldLemmas

/- ### Facts about the dither pipeline -/

theorem bayer_getD_mem (i : ℕ) : 0 ≤ bayer.getD i 0 ∧ bayer.getD i 0 ≤ 1 := by
  by_cases h : i < 16
  · interval_cases i <;> norm_num [bayer]
  · rw [List.getD_eq_default]
    · norm_num
    · simp only [bayer, List.length]
      omega

theorem floor_div_four (z : ℝ) : ⌊z / 4⌋ = ⌊z⌋ / 4 := by
  have h1 : ((⌊z⌋ : ℤ) : ℝ) ≤ z := Int.floor_le z
  have h2 : z < ⌊z⌋ + 1 := Int.lt_floor_add_one z
  have hr0 : 0 ≤ ⌊z⌋ % 4 := Int.emod_nonneg ⌊z⌋ (by norm_num)
  have hr4 : ⌊z⌋ % 4 < 4 := Int.emod_lt_of_pos ⌊z⌋ (by norm_num)
  have hmr : 4 * (⌊z⌋ / 4) + ⌊z⌋ % 4 = ⌊z⌋ := Int.ediv_add_emod ⌊z⌋ 4
  rw [Int.floor_eq_iff]
  constructor
  · have hle : ((4 * (⌊z⌋ / 4) : ℤ) : ℝ) ≤ ((⌊z⌋ : ℤ) : ℝ) := by
      exact_mod_cast (by omega : (4 * (⌊z⌋ / 4) : ℤ) ≤ ⌊z⌋)
    push_cast at hle ⊢
    linarith
  · have hlt : ((⌊z⌋ : ℤ) : ℝ) + 1 ≤ ((4 * (⌊z⌋ / 4) + 4 : ℤ) : ℝ) := by
      exact_mod_cast (by omega : (⌊z⌋ : ℤ) + 1 ≤ 4 * (⌊z⌋ / 4) + 4)
    push_cast at hlt ⊢
    linarith

/-- Taking the floor after wrapping mod 4 is integer mod 4 of the floor. -/
theorem floor_glslMod_four (z : ℝ) : ⌊glslMod z 4⌋ = ⌊z⌋ % 4 := by
  unfold glslMod
  have h : z - 4 * (⌊z / 4⌋ : ℝ) = z - ((4 * ⌊z / 4⌋ : ℤ) : ℝ) := by push_cast; ring
  rw [h, Int.floor_sub_int, floor_div_four, Int.emod_def]

theorem normalizedDepth_mem (depth dscale : ℝ) :
    0 ≤ normalizedDepth depth dscale ∧ normalizedDepth depth dscale ≤ 1 := by
  unfold normalizedDepth clamp
  constructor
  · have h : min (max (depth / dscale) 0) 1 ≤ 1 := min_le_right _ _
    linarith
  · have h : 0 ≤ min (max (depth / dscale) 0) 1 :=
      le_min (le_max_right _ _) zero_le_one
    linarith

theorem contrastDepth_mem (depth dscale dc : ℝ) (hc : 0 ≤ dc) :
    0 ≤ contrastDepth depth dscale dc ∧ contrastDepth depth dscale dc ≤ 1 := by
  obtain ⟨h0, h1⟩ := normalizedDepth_mem depth dscale
  unfold contrastDepth
  exact ⟨Real.rpow_nonneg h0 _, Real.rpow_le_one h0 h1 (by linarith)⟩

theorem bayerEntry_mem (x y d : ℝ) : 0 ≤ bayerEntry x y d ∧ bayerEntry x y d ≤ 1 := by
  simp only [bayerEntry]
  obtain ⟨h0, h1⟩ := bayer_getD_mem
    ((⌊glslMod (x / max d 1) 4⌋ + ⌊glslMod (y / max d 1) 4⌋ * 4).toNat)
  constructor
  · exact_mod_cast h0
  · exact_mod_cast h1

/- ### Claim theorems -/

/-- C1: for every fragment input `y`, `time` and positive uniforms
`stripeWidth`, `stripeSpacing` (any `speed`), the stripe mask equals 1 if
`mod(y + time*speed, stripeWidth + stripeSpacing)` lies in `[0, stripeWidth)`
and 0 otherwise; with `stripeWidth = 0.035`, `stripeSpacing = 0.5`,
`speed = 0.35`, `time = 0` the mask is 1 at `y = 0` and 0 at `y = 0.0351`. -/
theorem stripe_mask_formula :
    (∀ vY time w s sp : ℚ, 0 < w → 0 < s →
      stripeLine vY time w s sp =
        if 0 ≤ glslMod (vY + time * sp) (w + s) ∧
            glslMod (vY + time * sp) (w + s) < w
        then 1 else 0) ∧
    stripeLine (0 : ℚ) 0 (35/1000) (1/2) (35/100) = 1 ∧
    stripeLine (351/10000 : ℚ) 0 (35/1000) (1/2) (35/100) = 0 := by
  refine ⟨?_, ?_, ?_⟩
  · intro vY time w s sp hw hs
    have hT : 0 < totalWidth w s := by unfold totalWidth; linarith
    rw [stripeLine_eq_if vY time w s sp hT]
    have hnn : 0 ≤ glslMod (vY + time * sp) (w + s) :=
      glslMod_nonneg _ _ (by linarith)
    simp only [totalWidth, hnn, true_and]
  · norm_num [stripeLine, totalWidth, glslMod, step]
  · norm_num [stripeLine, totalWidth, glslMod, step]

theorem stripe_mask_formula_witness :
    0 < (35/1000 : ℚ) ∧ 0 < (1/2 : ℚ) ∧
    stripeLine (2 : ℚ) 3 (35/1000) (1/2) (35/100) =
      if 0 ≤ glslMod ((2 : ℚ) + 3 * (35/100)) (35/1000 + 1/2) ∧
          glslMod ((2 : ℚ) + 3 * (35/100)) (35/1000 + 1/2) < 35/1000
      then 1 else 0 :=
  ⟨by norm_num, by norm_num,
    stripe_mask_formula.1 2 3 (35/1000) (1/2) (35/100) (by norm_num) (by norm_num)⟩

/-- C4: for positive `stripeWidth` and `stripeSpacing` the stripe mask is a
function of the animated coordinate `yA = y + time*speed` alone, is periodic
in it with period `stripeWidth + stripeSpacing`, and within each period
equals 1 on exactly the initial sub-interval of length `stripeWidth`. -/
theorem stripe_mask_periodic :
    ∀ w s : ℚ, 0 < w → 0 < s →
      (∀ vY time sp : ℚ,
        stripeLine vY time w s sp = maskOfY (vY + time * sp) w s) ∧
      (∀ yA : ℚ, maskOfY (yA + (w + s)) w s = maskOfY yA w s) ∧
      (∀ k : ℤ,
        {yA : ℚ | yA ∈ Set.Ico ((k : ℚ) * (w + s)) (((k : ℚ) + 1) * (w + s)) ∧
            maskOfY yA w s = 1}
          = Set.Ico ((k : ℚ) * (w + s)) ((k : ℚ) * (w + s) + w)) := by
  intro w s hw hs
  have hT : (0 : ℚ) < w + s := by linarith
  refine ⟨?_, ?_, ?_⟩
  · intro vY time sp
    simp [maskOfY, stripeLine]
  · intro yA
    rw [maskOfY_eq_if _ _ _ hT, maskOfY_eq_if _ _ _ hT,
      glslMod_add_period _ _ hT.ne']
  · intro k
    have hsplit : ((k : ℚ) + 1) * (w + s) = (k : ℚ) * (w + s) + (w + s) := by ring
    ext yA
    simp only [Set.mem_setOf_eq, Set.mem_Ico]
    constructor
    · rintro ⟨⟨hlo, hhi⟩, hmask⟩
      refine ⟨hlo, ?_⟩
      rw [maskOfY_eq_one_iff _ _ _ hT,
        glslMod_in_period yA (w + s) hT k hlo hhi] at hmask
      linarith
    · rintro ⟨hlo, hhi⟩
      have hhi2 : yA < ((k : ℚ) + 1) * (w + s) := by
        rw [hsplit]; linarith
      refine ⟨⟨hlo, hhi2⟩, ?_⟩
      rw [maskOfY_eq_one_iff _ _ _ hT,
        glslMod_in_period yA (w + s) hT k hlo hhi2]
      linarith

theorem stripe_mask_periodic_witness :
    0 < (35/1000 : ℚ) ∧ 0 < (1/2 : ℚ) ∧
    maskOfY ((0 : ℚ) + (35/1000 + 1/2)) (35/1000) (1/2) =
      maskOfY (0 : ℚ) (35/1000) (1/2) :=
  ⟨by norm_num, by norm_num,
    (stripe_mask_periodic (35/1000) (1/2) (by norm_num) (by norm_num)).2.1 0⟩

/-- C6 counterexample: scene.ts performs no clamping of the stripe widths.
At `stripeWidth = stripeSpacing = 0` the period handed to `mod` is exactly 0,
and at `stripeWidth = -1`, `stripeSpacing = 2`, `y = 0.0005` the code's mask
is 0 while the clamped computation the claim describes yields 1. -/
theorem stripe_clamp_counterexample :
    totalWidth (0 : ℚ) 0 = 0 ∧
    stripeLine (5/10000 : ℚ) 0 (-1) 2 0 = 0 ∧
    stripeLineClamped (5/10000 : ℚ) 0 (-1) 2 0 = 1 ∧
    stripeLine (5/10000 : ℚ) 0 (-1) 2 0 ≠
      stripeLineClamped (5/10000 : ℚ) 0 (-1) 2 0 := by
  refine ⟨by norm_num [totalWidth], ?_, ?_, ?_⟩
  · norm_num [stripeLine, totalWidth, glslMod, step]
  · norm_num [stripeLineClamped, stripeLine, totalWidth, glslMod, step,
      max_def, min_def]
  · norm_num [stripeLineClamped, stripeLine, totalWidth, glslMod, step,
      max_def, min_def]

/-- C6 amended: the shader applies no clamping; the period
`stripeWidth + stripeSpacing` is used directly as the modulus and is 0 when
both widths are 0.  For `stripeWidth, stripeSpacing ≥ 0.001` — in particular
throughout the GUI ranges `[0.01, 0.5]` and `[0.1, 2.0]` — the unclamped
computation coincides with the clamped one the spec asks for, so no
mod-by-zero arises there. -/
theorem stripe_clamp_amended :
    (∀ vY time w s sp : ℚ, 1/1000 ≤ w → 1/1000 ≤ s →
      stripeLine vY time w s sp = stripeLineClamped vY time w s sp) ∧
    totalWidth (0 : ℚ) 0 = 0 := by
  constructor
  · intro vY time w s sp hw hs
    unfold stripeLineClamped
    rw [max_eq_left hw, max_eq_left hs]
  · norm_num [totalWidth]

theorem stripe_clamp_amended_witness :
    1/1000 ≤ (35/1000 : ℚ) ∧ 1/1000 ≤ (1/2 : ℚ) ∧
    stripeLine (7 : ℚ) 11 (35/1000) (1/2) (35/100) =
      stripeLineClamped (7 : ℚ) 11 (35/1000) (1/2) (35/100) :=
  ⟨by norm_num, by norm_num,
    stripe_clamp_amended.1 7 11 (35/1000) (1/2) (35/100)
      (by norm_num) (by norm_num)⟩

/-- C7: the 4x4 Bayer table contains exactly 16 entries, pairwise distinct,
and every value `k/16` for `k < 16` occurs in it. -/
theorem bayer_table_complete :
    bayer.length = 16 ∧ bayer.Nodup ∧
    ∀ k : ℕ, k < 16 → ((k : ℚ) / 16) ∈ bayer := by
  refine ⟨by norm_num [bayer], ?_, ?_⟩
  · norm_num [bayer, List.nodup_cons, List.mem_cons]
  · intro k hk
    interval_cases k <;> norm_num [bayer]

theorem bayer_table_complete_witness :
    (3 : ℕ) < 16 ∧ ((3 : ℚ) / 16) ∈ bayer :=
  ⟨by norm_num, bayer_table_complete.2.2 3 (by norm_num)⟩

/-- C9: a viewport resize updates only the resolution uniform, the renderer
size and the camera's projection aspect ratio; the stripe, animation and
dither uniforms and the time accumulator are unchanged. -/
theorem resize_frame_effect (w h : ℚ) (st : SceneState) :
    (onResize w h st).resolution = (w, h) ∧
    (onResize w h st).rendererSize = (w, h) ∧
    (onResize w h st).cameraAspect = w / h ∧
    (onResize w h st).stripeWidth = st.stripeWidth ∧
    (onResize w h st).stripeSpacing = st.stripeSpacing ∧
    (onResize w h st).speed = st.speed ∧
    (onResize w h st).time = st.time ∧
    (onResize w h st).ditherSize = st.ditherSize ∧
    (onResize w h st).ditherMix = st.ditherMix ∧
    (onResize w h st).ditherDepthScale = st.ditherDepthScale ∧
    (onResize w h st).ditherContrast = st.ditherContrast := by
  simp [onResize, handleResize, resolutionListener]

/-- C5: at the defaults `ditherSize = 1`, `ditherDepthScale = 40` and with
`ditherContrast = 0`, `dynamicSize` grows from 0 at depth 0 to 1 at depth 40:
the dither cell size is not non-increasing in depth — the pattern gets
coarser, not finer, with distance, against the code's own comment
`Make pattern denser with depth`. -/
theorem dynamicSize_depth_bug :
    dynamicSize 1 0 40 0 = 0 ∧ dynamicSize 1 40 40 0 = 1 ∧
    dynamicSize 1 0 40 0 < dynamicSize 1 40 40 0 := by
  have e1 : (1 : ℝ) + 0 * 2 = 1 := by norm_num
  have h0 : contrastDepth 0 40 0 = 1 := by
    unfold contrastDepth normalizedDepth clamp
    rw [e1, Real.rpow_one]
    norm_num [max_def, min_def]
  have h40 : contrastDepth 40 40 0 = 0 := by
    unfold contrastDepth normalizedDepth clamp
    rw [e1, Real.rpow_one]
    norm_num [max_def, min_def]
  refine ⟨?_, ?_, ?_⟩
  · unfold dynamicSize; rw [h0]; norm_num
  · unfold dynamicSize; rw [h40]; norm_num
  · unfold dynamicSize; rw [h0, h40]; norm_num

/-- C2 counterexample: at `coord = (2,0)`, `depth = 20`, `ditherSize = 1`,
`ditherDepthScale = 40`, `ditherContrast = 0`, the code's dither value is
1/16, while the claimed rule — Bayer index `floor(coord / dynamicSize) mod 4`,
dividing by `dynamicSize` itself instead of `max(dynamicSize, 1)` — gives 0:
here `dynamicSize = 1/2 < 1`. -/
theorem ditherValue_claimed_counterexample :
    getDitherValue 2 0 20 1 40 0 = 1/16 ∧
    getDitherValueClaimed 2 0 20 1 40 0 = 0 ∧
    getDitherValue 2 0 20 1 40 0 ≠ getDitherValueClaimed 2 0 20 1 40 0 := by
  have e1 : (1 : ℝ) + 0 * 2 = 1 := by norm_num
  have hcd : contrastDepth 20 40 0 = 1/2 := by
    unfold contrastDepth normalizedDepth clamp
    rw [e1, Real.rpow_one]
    norm_num [max_def, min_def]
  have hds : dynamicSize 1 20 40 0 = 1/2 := by
    unfold dynamicSize
    rw [hcd]
    norm_num
  have hcode : getDitherValue 2 0 20 1 40 0 = 1/16 := by
    have hbe : bayerEntry 2 0 (1/2) = 1/8 := by
      have hmax : max (1/2 : ℝ) 1 = 1 := by norm_num
      have hx : ⌊glslMod ((2 : ℝ) / 1) 4⌋ = 2 := by norm_num [glslMod]
      have hy : ⌊glslMod ((0 : ℝ) / 1) 4⌋ = 0 := by norm_num [glslMod]
      have hidx : (((2 : ℤ) + 0 * 4).toNat) = 2 := rfl
      simp only [bayerEntry, hmax, hx, hy, hidx]
      norm_num [bayer, List.getD]
    simp only [getDitherValue]
    rw [hds, hcd, hbe]
    norm_num [mix, step]
  have hclaimed : getDitherValueClaimed 2 0 20 1 40 0 = 0 := by
    have hx : (⌊(2 : ℝ) / (1/2)⌋ : ℤ) % 4 = 0 := by norm_num
    have hy : (⌊(0 : ℝ) / (1/2)⌋ : ℤ) % 4 = 0 := by norm_num
    have hidx : (((0 : ℤ) + 0 * 4).toNat) = 0 := rfl
    simp only [getDitherValueClaimed]
    rw [hds, hcd]
    simp only [hx, hy, hidx]
    norm_num [mix, step, bayer, List.getD]
  refine ⟨hcode, hclaimed, ?_⟩
  rw [hcode, hclaimed]
  norm_num

/-- C2 amended: `getDitherValue` computes the claimed quantities exactly,
except that the Bayer entry is selected by
`floor(pixelCoord / max(dynamicSize, 1)) mod 4` in each axis (the code
divides by `max(dynamicSize, 1.0)`, not by `dynamicSize`); and for
`ditherContrast ≥ 0` the returned dither threshold lies in [0,1]. -/
theorem ditherValue_amended (cx cy depth ds dscale dc : ℝ) (hc : 0 ≤ dc) :
    getDitherValue cx cy depth ds dscale dc =
      getDitherValueAmended cx cy depth ds dscale dc ∧
    0 ≤ getDitherValue cx cy depth ds dscale dc ∧
    getDitherValue cx cy depth ds dscale dc ≤ 1 := by
  refine ⟨?_, ?_⟩
  · simp only [getDitherValue, getDitherValueAmended, bayerEntry,
      floor_glslMod_four]
  · obtain ⟨hb0, hb1⟩ := bayerEntry_mem cx cy (dynamicSize ds depth dscale dc)
    obtain ⟨hc0, hc1⟩ := contrastDepth_mem depth dscale dc hc
    obtain ⟨hs0, hs1⟩ := step_mem_unit ((1 : ℝ)/2)
      (bayerEntry cx cy (dynamicSize ds depth dscale dc))
    exact mix_mem _ _ _ hb0 hb1 hs0 hs1 hc0 hc1

theorem ditherValue_amended_witness :
    (0 : ℝ) ≤ 8/10 ∧
    (getDitherValue 2 0 20 1 40 (8/10) =
        getDitherValueAmended 2 0 20 1 40 (8/10) ∧
      0 ≤ getDitherValue 2 0 20 1 40 (8/10) ∧
      getDitherValue 2 0 20 1 40 (8/10) ≤ 1) :=
  ⟨by norm_num, ditherValue_amended 2 0 20 1 40 (8/10) (by norm_num)⟩

/-- C3 counterexample: in the dither variant at view-space depth 20 with the
mask on (`y = 0`, `time = 0`, default uniforms, `ditherMix = 0`), the
fragment colour is pure white (1,1,1); the claimed darkening to a factor
0.02 of the stripe colour at depth ≥ 20 does not happen. -/
theorem fragColor_depth_counterexample :
    (fragMainDither 0 20 0 0 0 (35/1000) (1/2) (35/100) 1 40 (8/10) 0).1
      = (1, 1, 1) ∧
    ((1 : ℝ), (1 : ℝ), (1 : ℝ)) ≠ ((2/100 : ℝ), (2/100 : ℝ), (2/100 : ℝ)) := by
  constructor
  · have hline : stripeLine (0 : ℝ) 0 (35/1000) (1/2) (35/100) = 1 := by
      norm_num [stripeLine, totalWidth, glslMod, step]
    simp only [fragMainDither]
    rw [hline]
    norm_num [mix]
  · simp only [ne_eq, Prod.mk.injEq]
    norm_num

/-- C3 amended: the final colour is `mix(black, lineColor, mask)` with the
constant white `lineColor = (1,1,1)` and no depth factor at all: the
stripe-variant fragment returns `((m,m,m), 0.95 + 0.05*m)` for mask `m` as a
function that takes no depth input, and in the dither variant with the
default stripe uniforms and the mask on, the colour is (1,1,1) at every
depth, including depth ≥ 20. -/
theorem fragColor_amended :
    (∀ vY time w s sp : ℚ,
      fragMainStripe vY time w s sp =
        ((stripeLine vY time w s sp, stripeLine vY time w s sp,
          stripeLine vY time w s sp),
          95/100 + 5/100 * stripeLine vY time w s sp)) ∧
    (∀ depth cx cy ds dscale dc : ℝ,
      (fragMainDither 0 depth cx cy 0 (35/1000) (1/2) (35/100)
          ds dscale dc 0).1 = (1, 1, 1)) := by
  constructor
  · intro vY time w s sp
    simp only [fragMainStripe, mix, Prod.mk.injEq]
    refine ⟨⟨by ring, by ring, by ring⟩, by ring⟩
  · intro depth cx cy ds dscale dc
    have hline : stripeLine (0 : ℝ) 0 (35/1000) (1/2) (35/100) = 1 := by
      norm_num [stripeLine, totalWidth, glslMod, step]
    simp only [fragMainDither]
    rw [hline]
    norm_num [mix]

/-- C10: no fragment is less than 95% opaque: the stripe variant's alpha is
exactly 0.95 off-stripe or 1.0 on-stripe, and in the dither variant, for
positive stripe widths and `ditherMix ∈ [0,1]`, alpha stays in [0.95, 1]. -/
theorem alpha_opacity :
    (∀ vY time w s sp : ℚ, 0 < w → 0 < s →
      (fragMainStripe vY time w s sp).2 = 95/100 ∨
      (fragMainStripe vY time w s sp).2 = 1) ∧
    (∀ vY depth cx cy time w s sp ds dscale dc dmix : ℝ,
      0 < w → 0 < s → 0 ≤ dmix → dmix ≤ 1 →
      95/100 ≤ (fragMainDither vY depth cx cy time w s sp
        ds dscale dc dmix).2 ∧
      (fragMainDither vY depth cx cy time w s sp ds dscale dc dmix).2 ≤ 1) := by
  constructor
  · intro vY time w s sp hw hs
    have hT : 0 < totalWidth w s := by unfold totalWidth; linarith
    have h := stripeLine_eq_if vY time w s sp hT
    simp only [fragMainStripe, mix]
    split_ifs at h
    · right; rw [h]; ring
    · left; rw [h]; ring
  · intro vY depth cx cy time w s sp ds dscale dc dmix hw hs hm0 hm1
    have hT : 0 < totalWidth w s := by unfold totalWidth; linarith
    have hline : stripeLine vY time w s sp = 0 ∨
        stripeLine vY time w s sp = 1 := by
      rw [stripeLine_eq_if vY time w s sp hT]
      split_ifs <;> simp
    have hl0 : 0 ≤ stripeLine vY time w s sp := by
      rcases hline with h | h <;> simp [h]
    have hl1 : stripeLine vY time w s sp ≤ 1 := by
      rcases hline with h | h <;> simp [h]
    obtain ⟨hd0, hd1⟩ := step_mem_unit
      (getDitherValue cx cy depth ds dscale dc) (stripeLine vY time w s sp)
    have hmix := mix_mem (stripeLine vY time w s sp)
      (step (getDitherValue cx cy depth ds dscale dc)
        (stripeLine vY time w s sp)) dmix hl0 hl1 hd0 hd1 hm0 hm1
    simp only [fragMainDither]
    unfold mix at hmix ⊢
    constructor
    · linarith [hmix.1, hmix.2]
    · linarith [hmix.1, hmix.2]

theorem alpha_opacity_witness :
    (0 : ℝ) < 35/1000 ∧ (0 : ℝ) < 1/2 ∧ (0 : ℝ) ≤ 1 ∧ (1 : ℝ) ≤ 1 ∧
    (95/100 ≤ (fragMainDither 0 20 3 4 5 (35/1000) (1/2) (35/100)
        1 40 (8/10) 1).2 ∧
      (fragMainDither 0 20 3 4 5 (35/1000) (1/2) (35/100)
        1 40 (8/10) 1).2 ≤ 1) :=
  ⟨by norm_num, by norm_num, by norm_num, by norm_num,
    alpha_opacity.2 0 20 3 4 5 (35/1000) (1/2) (35/100) 1 40 (8/10) 1
      (by norm_num) (by norm_num) (by norm_num) (by norm_num)⟩

end ShaderLand
